import Mathlib

/-!
Shallow embedding of the `mattermost-app-welcomebot` command handlers
(`HelpCall`, `PreviewCall`, `ListCall`, `SetChannelWelcomeCall`,
`GetChannelWelcomeCall`, `DeleteChannelWelcomeCall`) and of the external
key-value store client they call (`appclient.KVGet` / `KVSet` / `KVDelete`,
an external collaborator whose interface is taken from the spec, sections 4.1,
6 and 7).  The handlers are translated from the Go source; each handler maps a
decoded call request and a store state to a text response, the resulting store
state, and the list of key-value operations it performed.
-/

set_option maxRecDepth 8192

namespace WelcomeBot

/-- Embeds the Go constant `KVAppPrefix = "wb"`: the fixed namespace under
which the app stores its data. -/
def KVAppNS : String := "wb"

/-- Embeds the Go constant `commandHelp`: the usage text returned by the
`/help` endpoint (a Go raw-string literal, reproduced verbatim). -/
def commandHelp : String :=
  "* |/welcomebot preview [team-name] | - preview the welcome message for the given team name. The current user's username will be used to render the template.\n* |/welcomebot list| - list the teams for which welcome messages were defined\n* |/welcomebot set_channel_welcome [welcome-message]| - set the welcome message for the given channel. Direct channels are not supported.\n* |/welcomebot get_channel_welcome| - print the welcome message set for the given channel (if any)\n* |/welcomebot delete_channel_welcome| - delete the welcome message for the given channel (if any)\n"

/-- A channel of the invocation context (Mattermost model.Channel, the
fields the requests carry that matter here: its id and its type, where
type "D" is a direct one-to-one conversation). -/
structure Channel where
  id : String
  type : String
deriving DecidableEq, Repr

/-- The invocation context carried in an `apps.CallRequest` (acting user,
channel, team).  The Go zero value has empty strings everywhere. -/
structure Context where
  actingUserID : String
  channel : Channel
  teamID : String
deriving DecidableEq, Repr

/-- A decoded `apps.CallRequest`: the context plus the submitted form
values (`c.Values`); a Go map lookup of an absent key yields the zero
value, so values is total with default "". -/
structure CallRequest where
  context : Context
  values : String → String

/-- The zero-value `apps.CallRequest{}` that a handler keeps when JSON
decoding of the request body fails (the Go handlers ignore the error of
`json.NewDecoder(req.Body).Decode(&c)`). -/
def defaultCallRequest : CallRequest :=
  { context := { actingUserID := "", channel := { id := "", type := "" }, teamID := "" },
    values := fun _ => "" }

/-- Errors of the external key-value store, from the spec's error taxonomy
(section 7): `notFound` (no value for the key) and `failure` (the store
could not be read or written). -/
inductive KVError where
  | notFound
  | failure
deriving DecidableEq, Repr

/-- State of the external key-value store: its contents (a partial map from
namespace and key to stored string), plus the failure modes the spec
attributes to the external collaborator — `failing` (reads and writes
error out, section 7 Failure) and `rejecting` (KVSet reports the value as
not set without an error, the `!isSet` branch the Go code checks). -/
structure KVStore where
  data : String → String → Option String
  failing : Bool
  rejecting : Bool

/-- Point update of the store contents. -/
def KVStore.update (st : KVStore) (p k v : String) : KVStore :=
  { st with data := fun p' k' => if p' = p ∧ k' = k then some v else st.data p' k' }

/-- Point removal from the store contents. -/
def KVStore.remove (st : KVStore) (p k : String) : KVStore :=
  { st with data := fun p' k' => if p' = p ∧ k' = k then none else st.data p' k' }

/-- Modelled from the spec: the external appclient operation
`KVGet(prefix, key, ref)` (spec section 6: `get -> value|absent`, section 7:
unavailability surfaces as Failure).  The client library is not part of this
repository; an absent key or a failing store yields an error, which is the
condition the Go handlers test. -/
def KVGet (st : KVStore) (p k : String) : Except KVError String :=
  if st.failing then .error .failure
  else
    match st.data p k with
    | some v => .ok v
    | none => .error .notFound

/-- Modelled from the spec: the external appclient operation
`KVSet(prefix, key, ref)` returning `(isSet, err)` (spec section 6:
`set -> ok|error`; section 4.1: the value is stored verbatim).  On success the
value is written and `isSet` is true; a failing store errors; a rejecting
store answers `isSet = false` without an error. -/
def KVSet (st : KVStore) (p k v : String) : Except KVError (Bool × KVStore) :=
  if st.failing then .error .failure
  else if st.rejecting then .ok (false, st)
  else .ok (true, st.update p k v)

/-- Modelled from the spec: the external appclient operation
`KVDelete(prefix, key)` (spec section 6: `delete -> ok`; section 4.1:
deleting an absent key is an idempotent no-op). -/
def KVDelete (st : KVStore) (p k : String) : KVStore :=
  st.remove p k

/-- One key-value store operation performed by a handler, recorded with the
namespace and key it addressed. -/
inductive KVOp where
  | get (p k : String)
  | set (p k v : String)
  | del (p k : String)
deriving DecidableEq, Repr

/-- The namespace argument of a recorded store operation. -/
def KVOp.ns : KVOp → String
  | .get p _ => p
  | .set p _ _ => p
  | .del p _ => p

/-- The key argument of a recorded store operation. -/
def KVOp.key : KVOp → String
  | .get _ k => k
  | .set _ k _ => k
  | .del _ k => k

/-- An `apps.NewTextResponse` payload: every handler of this app answers
with a text response. -/
inductive Response where
  | text (s : String)
deriving DecidableEq, Repr

/-- The result of running one handler: the JSON response written, the store
state afterwards, and the store operations performed (in order). -/
abbrev HandlerResult := Response × KVStore × List KVOp

/-- Embeds `HelpCall`: writes `NewTextResponse(commandHelp)`; it never reads
the request body and performs no store access. -/
def HelpCall (_c : CallRequest) (st : KVStore) : HandlerResult :=
  (.text commandHelp, st, [])

/-- Embeds `PreviewCall`: writes the fixed text
"Shown Welcome Bot Preview"; it never reads the request body and performs
no store access. -/
def PreviewCall (_c : CallRequest) (st : KVStore) : HandlerResult :=
  (.text "Shown Welcome Bot Preview", st, [])

/-- Embeds `ListCall`: a `KVGet` of key "welcome_message" under the "wb"
namespace; an error yields the guidance text, success yields the fixed
text "Shown Welcome Bot List". -/
def ListCall (_c : CallRequest) (st : KVStore) : HandlerResult :=
  let message :=
    match KVGet st KVAppNS "welcome_message" with
    | .error _ => "You need to set the `welcome_messages` with set_welcome_message"
    | .ok _ => "Shown Welcome Bot List"
  (.text message, st, [.get KVAppNS "welcome_message"])

/-- Embeds `SetChannelWelcomeCall`: reads `c.Values["message"]`, performs a
`KVSet` of key "welcome_message" under the "wb" namespace, and answers
"We couldn't set your message" when `err != nil || !isSet`, otherwise
"Your message has been set". -/
def SetChannelWelcomeCall (c : CallRequest) (st : KVStore) : HandlerResult :=
  let welcomeMessages := c.values "message"
  match KVSet st KVAppNS "welcome_message" welcomeMessages with
  | .error _ =>
      (.text "We couldn't set your message", st, [.set KVAppNS "welcome_message" welcomeMessages])
  | .ok (isSet, st') =>
      if isSet then
        (.text "Your message has been set", st', [.set KVAppNS "welcome_message" welcomeMessages])
      else
        (.text "We couldn't set your message", st', [.set KVAppNS "welcome_message" welcomeMessages])

/-- Embeds `GetChannelWelcomeCall`: a `KVGet` of key "welcome_message" under
the "wb" namespace; an error yields the guidance text, success yields the
stored string itself. -/
def GetChannelWelcomeCall (_c : CallRequest) (st : KVStore) : HandlerResult :=
  match KVGet st KVAppNS "welcome_message" with
  | .error _ =>
      (.text "You need to set the `welcome_messages` with set_welcome_message", st,
        [.get KVAppNS "welcome_message"])
  | .ok v => (.text v, st, [.get KVAppNS "welcome_message"])

/-- Embeds `DeleteChannelWelcomeCall`: a `KVDelete` of key "welcome_message"
under the "wb" namespace (its error, if any, is discarded by the Go code),
then the fixed confirmation text. -/
def DeleteChannelWelcomeCall (_c : CallRequest) (st : KVStore) : HandlerResult :=
  (.text "Shown Welcome Bot Delete channel welcome",
    KVDelete st KVAppNS "welcome_message", [.del KVAppNS "welcome_message"])

/-- The six command endpoints registered in `main` (one `http.HandleFunc`
path per command). -/
inductive Endpoint where
  | help
  | list
  | preview
  | setChannelWelcome
  | getChannelWelcome
  | deleteChannelWelcome
deriving DecidableEq, Repr

/-- Maps each endpoint to its handler, as `main` wires the routes. -/
def dispatch : Endpoint → CallRequest → KVStore → HandlerResult
  | .help => HelpCall
  | .list => ListCall
  | .preview => PreviewCall
  | .setChannelWelcome => SetChannelWelcomeCall
  | .getChannelWelcome => GetChannelWelcomeCall
  | .deleteChannelWelcome => DeleteChannelWelcomeCall

/-- One endpoint invocation at the HTTP boundary: the body either decodes to
a call request or fails to decode (`none`); the Go handlers discard the
decode error, so a failed decode leaves the zero-value request. -/
def handleRequest (e : Endpoint) (body : Option CallRequest) (st : KVStore) : HandlerResult :=
  dispatch e (body.getD defaultCallRequest) st

/-- Substring occurrence test on character lists (structural recursion). -/
def occursList (pat : List Char) : List Char → Bool
  | [] => pat.isPrefixOf ([] : List Char)
  | c :: t => pat.isPrefixOf (c :: t) || occursList pat t

/-- Whether `pat` occurs as a contiguous substring of `s`. -/
def occursIn (pat s : String) : Bool :=
  occursList pat.data s.data

/-- A store with no contents and a healthy client: every read answers
`notFound`, writes succeed. -/
def stEmpty : KVStore :=
  { data := fun _ _ => none, failing := false, rejecting := false }

/-- A healthy store holding "hello" at the app's single key. -/
def stHello : KVStore :=
  { data := fun p k => if p = "wb" ∧ k = "welcome_message" then some "hello" else none,
    failing := false, rejecting := false }

/-- A request whose only submitted form value is `message = m`, from a
public channel. -/
def reqMsg (m : String) : CallRequest :=
  { context := { actingUserID := "alice", channel := { id := "chan1", type := "O" }, teamID := "t1" },
    values := fun k => if k = "message" then m else "" }

/-- A request submitted from a direct (one-to-one) conversation, carrying
`message = "hi"`. -/
def directChannelReq : CallRequest :=
  { context := { actingUserID := "alice", channel := { id := "dm1", type := "D" }, teamID := "" },
    values := fun k => if k = "message" then "hi" else "" }

/-- C1: for every string `msg`, invoking `SetChannelWelcomeCall` with form
value `message = msg` against a healthy store and then invoking
`GetChannelWelcomeCall` on the resulting store (no intervening write)
returns a response whose text is exactly `msg` — stored verbatim, no
transformation or truncation. -/
theorem set_then_get_roundtrip (msg : String) (c c' : CallRequest) (st : KVStore)
    (hm : c.values "message" = msg) (hf : st.failing = false) (hr : st.rejecting = false) :
    (GetChannelWelcomeCall c' (SetChannelWelcomeCall c st).2.1).1 = .text msg := by
  simp [SetChannelWelcomeCall, GetChannelWelcomeCall, KVSet, KVGet, KVStore.update,
    hm, hf, hr]

/-- Witness for C1 at `msg = "hello"` on the empty healthy store. -/
theorem set_then_get_roundtrip_witness :
    (reqMsg "hello").values "message" = "hello" ∧ stEmpty.failing = false ∧
      stEmpty.rejecting = false ∧
      (GetChannelWelcomeCall (reqMsg "") (SetChannelWelcomeCall (reqMsg "hello") stEmpty).2.1).1 =
        .text "hello" :=
  ⟨rfl, rfl, rfl, set_then_get_roundtrip "hello" (reqMsg "hello") (reqMsg "") stEmpty rfl rfl rfl⟩

/-- C5: on a store holding no value at the app's key (never set, or
deleted), `GetChannelWelcomeCall` answers the guidance text as a normal
text response — not an error response, and not an empty string. -/
theorem get_unset_returns_guidance (c : CallRequest) (st : KVStore)
    (h : st.data KVAppNS "welcome_message" = none) :
    (GetChannelWelcomeCall c st).1 =
      .text "You need to set the `welcome_messages` with set_welcome_message" ∧
      "You need to set the `welcome_messages` with set_welcome_message" ≠ "" := by
  cases hf : st.failing <;>
    simp [GetChannelWelcomeCall, KVGet, hf, h]

/-- Witness for C5 on the empty healthy store. -/
theorem get_unset_returns_guidance_witness :
    stEmpty.data KVAppNS "welcome_message" = none ∧
      (GetChannelWelcomeCall (reqMsg "") stEmpty).1 =
        .text "You need to set the `welcome_messages` with set_welcome_message" :=
  ⟨rfl, (get_unset_returns_guidance (reqMsg "") stEmpty rfl).1⟩

/-- C6: `SetChannelWelcomeCall` answers "We couldn't set your message"
exactly when the store write did not succeed (error or not-set), and
answers the success confirmation "Your message has been set" exactly when
it did. -/
theorem set_failure_message_iff (c : CallRequest) (st : KVStore) :
    ((SetChannelWelcomeCall c st).1 = .text "We couldn't set your message" ↔
        st.failing = true ∨ st.rejecting = true) ∧
      ((SetChannelWelcomeCall c st).1 = .text "Your message has been set" ↔
        st.failing = false ∧ st.rejecting = false) := by
  cases hf : st.failing <;> cases hr : st.rejecting <;>
    simp [SetChannelWelcomeCall, KVSet, hf, hr]

/-- C7: `DeleteChannelWelcomeCall` answers the fixed confirmation text on
every store state (also when nothing is stored), afterwards the store
holds no value at the app's key, and a subsequent
`GetChannelWelcomeCall` answers the "not configured" guidance text. -/
theorem delete_confirms_and_clears (c c' : CallRequest) (st : KVStore) :
    (DeleteChannelWelcomeCall c st).1 = .text "Shown Welcome Bot Delete channel welcome" ∧
      (DeleteChannelWelcomeCall c st).2.1.data KVAppNS "welcome_message" = none ∧
      (GetChannelWelcomeCall c' (DeleteChannelWelcomeCall c st).2.1).1 =
        .text "You need to set the `welcome_messages` with set_welcome_message" := by
  refine ⟨rfl, ?_, ?_⟩
  · simp [DeleteChannelWelcomeCall, KVDelete, KVStore.remove]
  · cases hf : st.failing <;>
      simp [DeleteChannelWelcomeCall, GetChannelWelcomeCall, KVGet, KVDelete,
        KVStore.remove, hf]

/-- C8 (evaluation): `PreviewCall` writes the fixed text
"Shown Welcome Bot Preview" on every request and store — the response
never depends on the invoking user's identity or the team name, the store
is unchanged, and no key-value operation is performed. -/
theorem preview_constant_no_store_access (c : CallRequest) (st : KVStore) :
    PreviewCall c st = (.text "Shown Welcome Bot Preview", st, []) := rfl

/-- C2: every key-value operation any endpoint performs addresses the fixed
key "welcome_message" under the fixed namespace "wb"; the whole handler
outcome is independent of the invoking channel, team and user (it depends
on the request only through the submitted form values); and no endpoint
changes the store at any other (namespace, key) pair — so at most one
welcome message is stored globally, shared across channels and teams. -/
theorem kv_single_global_key (e : Endpoint) (c c' : CallRequest) (st : KVStore)
    (hv : c.values = c'.values) :
    (∀ op ∈ (dispatch e c st).2.2, op.ns = KVAppNS ∧ op.key = "welcome_message") ∧
      dispatch e c st = dispatch e c' st ∧
      (∀ p k, ¬(p = KVAppNS ∧ k = "welcome_message") →
        (dispatch e c st).2.1.data p k = st.data p k) := by
  cases e <;> cases hf : st.failing <;> cases hr : st.rejecting <;>
    cases hd : st.data KVAppNS "welcome_message" <;>
    simp_all [dispatch, HelpCall, ListCall, PreviewCall, SetChannelWelcomeCall,
      GetChannelWelcomeCall, DeleteChannelWelcomeCall, KVSet, KVGet, KVDelete,
      KVStore.update, KVStore.remove, KVOp.ns, KVOp.key]

/-- Witness for C2 at the `set_channel_welcome` endpoint on the empty
healthy store. -/
theorem kv_single_global_key_witness :
    (reqMsg "hi").values = (reqMsg "hi").values ∧
      ((∀ op ∈ (dispatch .setChannelWelcome (reqMsg "hi") stEmpty).2.2,
          op.ns = KVAppNS ∧ op.key = "welcome_message") ∧
        dispatch .setChannelWelcome (reqMsg "hi") stEmpty =
          dispatch .setChannelWelcome (reqMsg "hi") stEmpty ∧
        (∀ p k, ¬(p = KVAppNS ∧ k = "welcome_message") →
          (dispatch .setChannelWelcome (reqMsg "hi") stEmpty).2.1.data p k =
            stEmpty.data p k)) :=
  ⟨rfl, kv_single_global_key .setChannelWelcome (reqMsg "hi") (reqMsg "hi") stEmpty rfl⟩

/-- C3 (counterexample): the help endpoint answers exactly `commandHelp`,
and `commandHelp` nowhere contains the string "help" — so the usage text
does not enumerate six commands: the `help` command itself is missing
from it. -/
theorem help_text_omits_help_command :
    (HelpCall defaultCallRequest stEmpty).1 = .text commandHelp ∧
      occursIn "help" commandHelp = false :=
  ⟨rfl, by decide⟩

/-- C3 (amended): for every request and store, the help endpoint answers
the static usage text `commandHelp` unconditionally, with no store access;
the text enumerates the five commands `list`, `preview`,
`set_channel_welcome`, `get_channel_welcome` and `delete_channel_welcome`
(not `help` itself). -/
theorem help_unconditional_usage (c : CallRequest) (st : KVStore) :
    HelpCall c st = (.text commandHelp, st, []) ∧
      occursIn "/welcomebot list" commandHelp = true ∧
      occursIn "/welcomebot preview" commandHelp = true ∧
      occursIn "/welcomebot set_channel_welcome" commandHelp = true ∧
      occursIn "/welcomebot get_channel_welcome" commandHelp = true ∧
      occursIn "/welcomebot delete_channel_welcome" commandHelp = true :=
  ⟨rfl, by decide, by decide, by decide, by decide, by decide⟩

/-- C4 (evaluation at the failing input): invoked from a direct one-to-one
conversation (channel type "D"), `SetChannelWelcomeCall` performs no
scope validation: it still performs the `KVSet`, stores the message, and
answers the success confirmation — contradicting the command help's
"Direct channels are not supported." -/
theorem set_direct_channel_still_writes :
    directChannelReq.context.channel.type = "D" ∧
      (SetChannelWelcomeCall directChannelReq stEmpty).1 = .text "Your message has been set" ∧
      (SetChannelWelcomeCall directChannelReq stEmpty).2.2 =
        [.set KVAppNS "welcome_message" "hi"] ∧
      (SetChannelWelcomeCall directChannelReq stEmpty).2.1.data KVAppNS "welcome_message" =
        some "hi" := by
  refine ⟨rfl, rfl, rfl, ?_⟩
  simp [SetChannelWelcomeCall, KVSet, KVStore.update, stEmpty, directChannelReq, KVAppNS]

/-- C9: on every command endpoint, a request body that fails JSON decoding
is absorbed — the invocation proceeds exactly as the zero-value (default)
invocation — and a well-formed text response is still written. -/
theorem decode_failure_handled (e : Endpoint) (st : KVStore) :
    handleRequest e none st = dispatch e defaultCallRequest st ∧
      ∃ s, (handleRequest e none st).1 = Response.text s := by
  refine ⟨rfl, ?_⟩
  cases e
  case help => exact ⟨commandHelp, rfl⟩
  case preview => exact ⟨"Shown Welcome Bot Preview", rfl⟩
  case deleteChannelWelcome => exact ⟨"Shown Welcome Bot Delete channel welcome", rfl⟩
  case list =>
    cases h : KVGet st KVAppNS "welcome_message" <;>
      simp [handleRequest, dispatch, ListCall, h]
  case setChannelWelcome =>
    cases hf : st.failing <;> cases hr : st.rejecting <;>
      simp [handleRequest, dispatch, SetChannelWelcomeCall, KVSet, hf, hr]
  case getChannelWelcome =>
    cases h : KVGet st KVAppNS "welcome_message" <;>
      simp [handleRequest, dispatch, GetChannelWelcomeCall, h]

/-- C10: the list endpoint's response never depends on the content of the
stored welcome message: whenever the read succeeds it is the fixed text
"Shown Welcome Bot List" (the same for any two stores holding any texts),
and in general it is one of exactly two constant strings, determined only
by whether the key-value read succeeds. -/
theorem list_constant_output (c c' : CallRequest) (st st' : KVStore)
    (hf : st.failing = false) (hf' : st'.failing = false)
    (hv : ∃ v, st.data KVAppNS "welcome_message" = some v)
    (hv' : ∃ v, st'.data KVAppNS "welcome_message" = some v) :
    (ListCall c st).1 = .text "Shown Welcome Bot List" ∧
      (ListCall c st).1 = (ListCall c' st').1 ∧
      ∀ (d : CallRequest) (u : KVStore),
        (ListCall d u).1 = .text "Shown Welcome Bot List" ∨
        (ListCall d u).1 =
          .text "You need to set the `welcome_messages` with set_welcome_message" := by
  obtain ⟨v, hv⟩ := hv
  obtain ⟨v', hv'⟩ := hv'
  refine ⟨?_, ?_, ?_⟩
  · simp [ListCall, KVGet, hf, hv]
  · simp [ListCall, KVGet, hf, hf', hv, hv']
  · intro d u
    cases h : KVGet u KVAppNS "welcome_message" <;> simp [ListCall, h]

/-- Witness for C10 on two healthy stores holding "hello". -/
theorem list_constant_output_witness :
    stHello.failing = false ∧ (∃ v, stHello.data KVAppNS "welcome_message" = some v) ∧
      (ListCall (reqMsg "") stHello).1 = .text "Shown Welcome Bot List" :=
  ⟨rfl, ⟨"hello", rfl⟩,
    (list_constant_output (reqMsg "") (reqMsg "x") stHello stHello rfl rfl
      ⟨"hello", rfl⟩ ⟨"hello", rfl⟩).1⟩

end WelcomeBot
